import Mathlib

/-!
Verification of the flytekit data-persistence layer
(src/flytekit/core/data_persistence.py).

The Python module is shallowly embedded below.  Strings model Python `str`;
the filesystem and the network are modelled by explicit oracles
(`LocalFS`, `GetEnv`, `PutEnv`) fixing the outcome of every external call,
so each Python function becomes a pure Lean function of its inputs and of
the oracle.  The embedding fixes `os.name = "posix"` (so `os.sep = "/"`;
the Windows-only `shutil.copytree` branches are unreachable) and elides
pure side effects that return no value (logging, `timeit`, `mkdir`,
`sleep` -- the possible sleep durations are modelled separately).
-/

namespace DataPersistence

/-- Exceptions raised by the module.  `osError` models Python `OSError`,
`notFound` models `FlyteDataNotFoundException`, `flyteAssertion` models
`FlyteAssertion`, `downloadExc` models `FlyteDownloadDataException` and
`uploadExc` models `FlyteUploadDataException` (each wrapper carries the
original cause and the two paths that appear in its message). -/
inductive Exc where
  | osError (msg : String)
  | notFound (path : String)
  | flyteAssertion (msg : String)
  | downloadExc (cause : Exc) (fromPath : String) (toPath : String)
  | uploadExc (cause : Exc) (fromPath : String) (toPath : String)
  | other (msg : String)
deriving DecidableEq, Repr

/-- Whether an exception is caught by `except OSError`. -/
def Exc.isOSError : Exc → Bool
  | .osError _ => true
  | _ => false

/-- Python `s.startswith(pre)`, over the character lists. -/
def strStarts (s pre : String) : Bool := pre.data.isPrefixOf s.data

/-- Python `s.endswith("/")` (the path separator of this embedding). -/
def sepEnds (s : String) : Bool := s.data.getLast? == some '/'

/-- Python `s[:-1]`: drop the last character. -/
def chop (s : String) : String := String.mk s.data.dropLast

/-- Source line 263 (`strip_file_header`): drops a leading `file://` if it
exists.  Under the `startswith` guard, `path.replace("file://", "", 1)`
removes exactly the first seven characters. -/
def strip_file_header (path : String) : String :=
  if strStarts path "file://" then String.mk (path.data.drop 7) else path

/-- Helper for `get_protocol`: the characters before the first occurrence
of `::` or `://`, or `none` when neither occurs. -/
def protoSplit : List Char → Option (List Char)
  | [] => none
  | ':' :: ':' :: _ => some []
  | ':' :: '/' :: '/' :: _ => some []
  | c :: rest => (protoSplit rest).map (c :: ·)

/-- fsspec `get_protocol`: the scheme before the first `::` or `://`, and
`"file"` for an unschemed string. -/
def get_protocol (url : String) : String :=
  match protoSplit url.data with
  | some pre => String.mk pre
  | none => "file"

/-- Python `os.path.join(t, "")` on posix: unchanged when `t` is empty or
already ends with the separator, otherwise the separator is appended. -/
def joinEmpty (t : String) : String :=
  if t = "" then t else if sepEnds t then t else t ++ "/"

/-- Oracle for the local filesystem checks used by `recursive_paths`
(`local_fs.exists` and `local_fs.isdir`). -/
structure LocalFS where
  fsExists : String → Bool
  isdir : String → Bool

/-- Source lines 271-285 (`recursive_paths`): appends a trailing separator
to `f` when it is local and confirmed to be an existing directory, or
unconditionally when it is not local; `t` always goes through
`os.path.join(t, "")`. -/
def recursive_paths (lfs : LocalFS) (f t : String) : String × String :=
  let f :=
    if get_protocol f = "file" then
      if lfs.fsExists f && lfs.isdir f then joinEmpty f else f
    else joinEmpty f
  (f, joinEmpty t)

/-- Source lines 485-505 (`join`) for a backend whose separator is `/`
(the scheme-mismatch warning is a pure log and the `unstrip` flag is not
exercised by any claim): strips one trailing separator from the base, then
joins base and segments with the separator. -/
def join (base : String) (tails : List String) : String :=
  let b := if sepEnds base then chop base else base
  String.intercalate "/" (b :: tails)

/-- Python `pat in s` for character lists: `pat` occurs contiguously. -/
def listContains (pat : List Char) : List Char → Bool
  | [] => pat.isEmpty
  | c :: rest => pat.isPrefixOf (c :: rest) || listContains pat rest

/-- The rate-limit test of `retry_request` (source line 133):
`"Please reduce your request rate" in str(e)`. -/
def isRateLimitMsg (s : String) : Bool :=
  listContains ("Please reduce your request rate").data s.data

/-- The loop of `retry_request` (source lines 126-137).  `attempts i` is
the outcome of the wrapped call on the 0-based attempt `i` (errors carry
`str(e)`); `remaining` counts the iterations left in `range(retries)`.
Returns the value returned or the error raised (`none` models the loop
falling through, which returns Python `None`), paired with the number of
attempts actually made. -/
def retryAux (attempts : Nat → Except String α) (retries : Nat) :
    Nat → Nat → Option (Except String α) × Nat
  | retry, 0 => (none, retry)
  | retry, remaining + 1 =>
    match attempts retry with
    | .ok a => (some (.ok a), retry + 1)
    | .error e =>
      if isRateLimitMsg e then
        if retry = retries - 1 then (some (.error e), retry + 1)
        else retryAux attempts retries (retry + 1) remaining
      else (some (.error e), retry + 1)

/-- Source lines 122-137 (`retry_request`): runs the wrapped call up to
`retries` times (default 5 via `kwargs.pop("retries", 5)`). -/
def retry_request (attempts : Nat → Except String α) (retries : Nat := 5) :
    Option (Except String α) × Nat :=
  retryAux attempts retries 0 retries

/-- Python `random.randint(a, b)`: yields an integer `n` with
`a ≤ n ≤ b`, both endpoints included. -/
def randintCanYield (a b n : Nat) : Bool := a ≤ n && n ≤ b

/-- The bound used by the backoff sleep (source line 129):
`min(2 ** retry, 32)`. -/
def sleepBound (retry : Nat) : Nat := min (2 ^ retry) 32

/-- The possible integer durations of
`sleep(random.randint(0, min(2 ** retry, 32)))` before the attempt with
0-based index `retry` (source lines 128-129). -/
def retrySleepPossible (retry d : Nat) : Bool := randintCanYield 0 (sleepBound retry) d

/-- Oracle fixing the backend outcomes seen by one pass of the body of
`get` (source lines 307-342): the result of the authenticated transfer
(`some s` when the backend returned a `str`/`Path`, `none` otherwise),
the authenticated existence re-check, and the result of the anonymous
transfer. -/
structure GetEnv where
  authTransfer : Except Exc (Option String)
  authExists : Bool
  anonTransfer : Except Exc (Option String)

/-- Source lines 307-342: one pass of the body of `get` (the
`retry_request` decorator around it is modelled separately).  Returns the
produced value (or raised exception) paired with the number of
anonymous-handle transfer attempts.  `get_filesystem` never returns
`None`, so the final `raise oe` (line 342) is unreachable and an anonymous
handle is always available. -/
def get (lfs : LocalFS) (env : GetEnv) (from_path to_path : String)
    (recursive : Bool) : Except Exc (Option String) × Nat :=
  let p := if recursive then recursive_paths lfs from_path to_path
           else (from_path, to_path)
  match env.authTransfer with
  | .ok dst => (.ok (some (dst.getD p.2)), 0)
  | .error e =>
    if e.isOSError then
      if env.authExists then (env.anonTransfer, 1)
      else (.error (.notFound p.1), 0)
    else (.error e, 0)

/-- Association-list model of a Python dict: lookup is the value of the
first pair with the given key. -/
def dlookup (d : List (String × String)) (k : String) : Option String :=
  (d.find? (fun p => p.1 == k)).map Prod.snd

/-- Python `d.update(u)` for lookup purposes: keys of `u` win over keys of
`d`. -/
def dictUpdate (d u : List (String × String)) : List (String × String) := u ++ d

/-- Oracle fixing the backend outcomes seen by one `_put` call: the
protocol of the filesystem resolved for `to_path`, its `isdir` check, the
result of the backend put (`some s` when it returned a `str`/`Path`), and
the execution metadata configured on the provider (`[]` models the falsy
cases `None` and `{}`). -/
structure PutEnv where
  destProtocol : String
  isdir : String → Bool
  putResult : Except Exc (Option String)
  execMeta : List (String × String)

/-- What one `_put` call did: its result, how many backend put calls were
issued, and the `metadata` kwarg handed to the backend (when issued). -/
structure PutOutcome where
  result : Except Exc String
  backendWrites : Nat
  metadataSent : Option (List (String × String))
deriving Repr

/-- Source lines 344-378 (`_put`): strips the local header from
`from_path`; for a recursive call on a destination filesystem whose
protocol is `file`, requires `from_path` to be a directory; normalizes the
paths when recursive; merges the provider execution metadata over the
caller metadata when configured (lines 363-366); then issues the backend
put and returns its canonicalized path when it is a `str`/`Path`,
otherwise the (normalized) destination.  The chunk-size kwarg of
lines 368-369 touches no claim and is elided. -/
def _put (lfs : LocalFS) (env : PutEnv) (from_path to_path : String)
    (recursive : Bool) (callerMeta : Option (List (String × String))) : PutOutcome :=
  let fp := strip_file_header from_path
  if recursive && (env.destProtocol == "file") && !(env.isdir fp) then
    { result := .error (.flyteAssertion ("Source path " ++ fp ++ " is not a directory"))
      backendWrites := 0
      metadataSent := none }
  else
    let p := if recursive then recursive_paths lfs fp to_path else (fp, to_path)
    let meta := if env.execMeta.isEmpty then callerMeta
                else some (dictUpdate (callerMeta.getD []) env.execMeta)
    match env.putResult with
    | .ok dst => { result := .ok (dst.getD p.2), backendWrites := 1, metadataSent := meta }
    | .error e => { result := .error e, backendWrites := 1, metadataSent := meta }

/-- Source lines 601-617 (`async_get_data`): runs `get`; re-raises a
`FlyteDataNotFoundException` unchanged; wraps any other exception into a
`FlyteDownloadDataException` carrying the cause and both paths.  The
function returns no value on success. -/
def async_get_data (lfs : LocalFS) (env : GetEnv) (remote_path local_path : String)
    (is_multipart : Bool) : Except Exc Unit :=
  match (get lfs env remote_path local_path is_multipart).1 with
  | .ok _ => .ok ()
  | .error (.notFound p) => .error (.notFound p)
  | .error e => .error (.downloadExc e remote_path local_path)

/-- Source lines 621-647 (`async_put_data`): runs `_put`; on success
returns the backend result only when `remote_path` starts with
`flyte://`, and otherwise the originally requested `remote_path`; wraps
any exception into a `FlyteUploadDataException` carrying the cause and
both paths (there is no dedicated not-found handler here). -/
def async_put_data (lfs : LocalFS) (env : PutEnv) (local_path remote_path : String)
    (is_multipart : Bool) (callerMeta : Option (List (String × String))) :
    Except Exc String :=
  match (_put lfs env local_path remote_path is_multipart callerMeta).result with
  | .ok r => if strStarts remote_path "flyte://" then .ok r else .ok remote_path
  | .error e => .error (.uploadExc e local_path remote_path)

/-- A local filesystem on which nothing exists; used for concrete
instantiations. -/
def lfsNone : LocalFS := ⟨fun _ => false, fun _ => false⟩

/-- A local filesystem with one directory `/tmp/d` and one regular file
`/tmp/f.txt`; used for concrete instantiations. -/
def lfsSample : LocalFS :=
  ⟨fun s => s == "/tmp/d" || s == "/tmp/f.txt", fun s => s == "/tmp/d"⟩

/-- A nonempty path acquires a trailing separator under
`os.path.join(t, "")`. -/
theorem sepEnds_joinEmpty (t : String) (h : t ≠ "") : sepEnds (joinEmpty t) = true := by
  unfold joinEmpty
  rw [if_neg h]
  cases hs : sepEnds t with
  | true => simp [hs]
  | false =>
    simp only [hs, Bool.false_eq_true, if_false]
    simp [sepEnds, String.data_append, List.getLast?_concat]

/-- The empty string is unschemed, hence local. -/
theorem get_protocol_empty : get_protocol "" = "file" := rfl

/-- C3 counterexample: the sleep before retried attempt 1 can be exactly
`min(2^1, 32) = 2` seconds, because `random.randint` includes both
endpoints, so the slept duration is not always strictly below
`min(2^n, 32)` as the claim states. -/
theorem C3_counterexample : retrySleepPossible 1 2 = true ∧ ¬ (2 < sleepBound 1) := by
  decide

/-- C3 (amended): the duration slept before retried attempt `n` is an
integer number of seconds lying in the closed interval
`[0, min(2^n, 32)]` (hence never above 32 seconds); the upper endpoint
itself is attainable. -/
theorem C3_retry_sleep_closed_interval (n d : Nat)
    (h : retrySleepPossible n d = true) : d ≤ sleepBound n ∧ d ≤ 32 := by
  unfold retrySleepPossible randintCanYield at h
  simp only [Bool.and_eq_true, decide_eq_true_eq] at h
  exact ⟨h.2, le_trans h.2 (Nat.min_le_right _ _)⟩

/-- Witness for C3: duration 4 is a possible sleep before retried
attempt 2 and satisfies the closed-interval bounds. -/
theorem C3_witness : retrySleepPossible 2 4 = true ∧ 4 ≤ sleepBound 2 ∧ 4 ≤ 32 :=
  ⟨by decide, C3_retry_sleep_closed_interval 2 4 (by decide)⟩

/-- C7 counterexample: for the destination `t = ""` the returned second
component is `""`, which carries no trailing separator
(`os.path.join("", "")` is `""`), refuting "recursive_paths returns t with
a trailing separator appended" for every pair of paths. -/
theorem C7_counterexample :
    (recursive_paths lfsNone "a" "").2 = "" ∧
    sepEnds (recursive_paths lfsNone "a" "").2 = false := by
  constructor <;> rfl

/-- C7 (amended): for every nonempty destination `t`, `recursive_paths`
returns `t` with a trailing separator; a nonempty local `f` that is an
existing directory also receives a trailing separator; a local `f` that
exists but is not a directory (a regular file) is returned unchanged; a
non-local `f` always receives a trailing separator. -/
theorem C7_recursive_paths_seps (lfs : LocalFS) (f t : String) (ht : t ≠ "") :
    sepEnds (recursive_paths lfs f t).2 = true ∧
    (get_protocol f = "file" → f ≠ "" → lfs.fsExists f = true → lfs.isdir f = true →
       sepEnds (recursive_paths lfs f t).1 = true) ∧
    (get_protocol f = "file" → lfs.fsExists f = true → lfs.isdir f = false →
       (recursive_paths lfs f t).1 = f) ∧
    (get_protocol f ≠ "file" → sepEnds (recursive_paths lfs f t).1 = true) := by
  refine ⟨?_, ?_, ?_, ?_⟩
  · exact sepEnds_joinEmpty t ht
  · intro hp hf he hd
    simp only [recursive_paths, hp, if_true, he, hd, Bool.and_self, if_pos]
    exact sepEnds_joinEmpty f hf
  · intro hp he hd
    simp [recursive_paths, hp, he, hd]
  · intro hp
    have hf : f ≠ "" := by
      intro hcon
      exact hp (hcon ▸ get_protocol_empty)
    simp only [recursive_paths, hp, if_neg]
    exact sepEnds_joinEmpty f hf

/-- Witness for C7: a local existing directory source and a nonempty
destination both end with the separator. -/
theorem C7_witness :
    sepEnds (recursive_paths lfsSample "/tmp/d" "/out").2 = true ∧
    sepEnds (recursive_paths lfsSample "/tmp/d" "/out").1 = true := by
  have h := C7_recursive_paths_seps lfsSample "/tmp/d" "/out" (by decide)
  exact ⟨h.1, h.2.1 (by decide) (by decide) (by decide) (by decide)⟩

/-- C8: `join` strips exactly one trailing separator from the base, so a
base with a single trailing separator joins to the same result as the
same base without it. -/
theorem C8_join_strips_one_sep (base : String) (tails : List String)
    (h : sepEnds base = false) :
    join (base ++ "/") tails = join base tails := by
  have h1 : sepEnds (base ++ "/") = true := by
    simp [sepEnds, String.data_append, List.getLast?_concat]
  have h2 : chop (base ++ "/") = base := by
    show String.mk ((base ++ "/").data).dropLast = base
    rw [String.data_append, List.dropLast_concat]
  unfold join
  simp only [h1, if_true, h, Bool.false_eq_true, if_false, h2]

/-- Witness for C8: the concrete instance from the specification. -/
theorem C8_witness :
    join "s3://bucket/pre/" ["a", "b"] = join "s3://bucket/pre" ["a", "b"] :=
  C8_join_strips_one_sep "s3://bucket/pre" ["a", "b"] (by decide)

/-- C9 counterexample: on the doubly prefixed path `file://file://a` the
stripper is not idempotent: one application yields `file://a`, a second
application yields `a`. -/
theorem C9_counterexample :
    ¬ (strip_file_header (strip_file_header "file://file://a") =
       strip_file_header "file://file://a") := by
  decide

/-- C9 (amended): `strip_file_header` removes at most one leading
`file://`; it is idempotent on every path that does not begin with the
doubled prefix `file://file://`, and a path without the prefix is
returned unchanged. -/
theorem C9_strip_file_header_idem (p : String)
    (h : strStarts p "file://file://" = false) :
    strip_file_header (strip_file_header p) = strip_file_header p ∧
    (strStarts p "file://" = false → strip_file_header p = p) := by
  cases hp : ("file://".data).isPrefixOf p.data with
  | true =>
    have hpre : ("file://".data) <+: p.data := List.isPrefixOf_iff_prefix.mp hp
    obtain ⟨rest, hrest⟩ := hpre
    have hdrop : p.data.drop 7 = rest := by
      have hlen : ("file://".data).length = 7 := by decide
      rw [← hrest, ← hlen]
      exact List.drop_left _ _
    have hnot : ("file://".data).isPrefixOf rest = false := by
      cases hcon : ("file://".data).isPrefixOf rest with
      | false => rfl
      | true =>
        have h2 : ("file://".data) <+: rest := List.isPrefixOf_iff_prefix.mp hcon
        have h3 : ("file://".data ++ "file://".data) <+: ("file://".data ++ rest) :=
          (List.prefix_append_right_inj _).mpr h2
        rw [hrest] at h3
        have hdata : ("file://file://" : String).data =
            "file://".data ++ "file://".data := by decide
        have h5 : strStarts p "file://file://" = true :=
          List.isPrefixOf_iff_prefix.mpr (hdata ▸ h3)
        rw [h5] at h
        cases h
    have hs1 : strip_file_header p = String.mk rest := by
      unfold strip_file_header strStarts
      rw [if_pos hp, hdrop]
    have hs2 : strip_file_header (String.mk rest) = String.mk rest := by
      unfold strip_file_header strStarts
      rw [if_neg]
      intro hcon
      rw [show ("file://".data).isPrefixOf (String.mk rest).data = false from hnot] at hcon
      cases hcon
    refine ⟨by rw [hs1, hs2], ?_⟩
    intro hcon
    unfold strStarts at hcon
    rw [hp] at hcon
    cases hcon
  | false =>
    have hid : strip_file_header p = p := by
      unfold strip_file_header strStarts
      rw [if_neg]
      intro hcon
      rw [hp] at hcon
      cases hcon
    exact ⟨by rw [hid, hid], fun _ => hid⟩

/-- Witness for C9: a singly prefixed path is stripped idempotently. -/
theorem C9_witness :
    strip_file_header (strip_file_header "file://abc") = strip_file_header "file://abc" ∧
    (strStarts "file://abc" "file://" = false →
       strip_file_header "file://abc" = "file://abc") :=
  C9_strip_file_header_idem "file://abc" (by decide)

/-- C1: on a low-level I/O error (OSError) from the authenticated
transfer, one pass of the body of `get` first re-checks existence with
the original authenticated handle; if the object does not exist it raises
`FlyteDataNotFoundException` with no anonymous transfer attempted, and if
it does exist it re-attempts the transfer exactly once through the
anonymous handle for the scheme, whose outcome (success or failure)
becomes the outcome of the call. -/
theorem C1_get_anonymous_fallback (lfs : LocalFS) (env : GetEnv)
    (from_path to_path : String) (recursive : Bool) (m : String)
    (h : env.authTransfer = .error (.osError m)) :
    (env.authExists = false →
       (∃ p, (get lfs env from_path to_path recursive).1 =
          .error (.notFound p)) ∧
       (get lfs env from_path to_path recursive).2 = 0) ∧
    (env.authExists = true →
       get lfs env from_path to_path recursive = (env.anonTransfer, 1)) := by
  unfold get
  rw [h]
  constructor
  · intro he
    rw [he]
    exact ⟨⟨_, rfl⟩, rfl⟩
  · intro he
    rw [he]
    simp [Exc.isOSError]

/-- Witness for C1: a concrete missing object raises not-found with no
anonymous attempt; a concrete existing object is fetched anonymously in
exactly one attempt. -/
theorem C1_witness :
    ((∃ p, (get lfsNone ⟨.error (.osError "io"), false, .ok none⟩
        "s3://b/k" "/tmp/x" false).1 = .error (.notFound p)) ∧
     (get lfsNone ⟨.error (.osError "io"), false, .ok none⟩
        "s3://b/k" "/tmp/x" false).2 = 0) ∧
    get lfsNone ⟨.error (.osError "io"), true, .ok (some "/tmp/x")⟩
        "s3://b/k" "/tmp/x" false = (.ok (some "/tmp/x"), 1) := by
  have h1 := C1_get_anonymous_fallback lfsNone
    ⟨.error (.osError "io"), false, .ok none⟩ "s3://b/k" "/tmp/x" false "io" rfl
  have h2 := C1_get_anonymous_fallback lfsNone
    ⟨.error (.osError "io"), true, .ok (some "/tmp/x")⟩ "s3://b/k" "/tmp/x" false "io" rfl
  exact ⟨h1.1 rfl, h2.2 rfl⟩

/-- C2: with `retries = 5`, an operation failing with the rate-limit
message on attempts 1-4 and succeeding on attempt 5 returns the success
value after 5 attempts; one failing with that message on all 5 attempts
raises the error of the 5th attempt; one failing with any other message
raises it immediately after attempt 1. -/
theorem C2_retry_request (α : Type) (a b c : Nat → Except String α)
    (v : α) (m : String)
    (ha : ∀ i, i < 4 → ∃ e, a i = .error e ∧ isRateLimitMsg e = true)
    (ha4 : a 4 = .ok v)
    (hb : ∀ i, i < 5 → ∃ e, b i = .error e ∧ isRateLimitMsg e = true)
    (hc0 : c 0 = .error m) (hcm : isRateLimitMsg m = false) :
    retry_request a 5 = (some (.ok v), 5) ∧
    (∃ e4, b 4 = .error e4 ∧ retry_request b 5 = (some (.error e4), 5)) ∧
    retry_request c 5 = (some (.error m), 1) := by
  obtain ⟨e0, ha0, hr0⟩ := ha 0 (by omega)
  obtain ⟨e1, ha1, hr1⟩ := ha 1 (by omega)
  obtain ⟨e2, ha2, hr2⟩ := ha 2 (by omega)
  obtain ⟨e3, ha3, hr3⟩ := ha 3 (by omega)
  obtain ⟨f0, hb0, hs0⟩ := hb 0 (by omega)
  obtain ⟨f1, hb1, hs1⟩ := hb 1 (by omega)
  obtain ⟨f2, hb2, hs2⟩ := hb 2 (by omega)
  obtain ⟨f3, hb3, hs3⟩ := hb 3 (by omega)
  obtain ⟨f4, hb4, hs4⟩ := hb 4 (by omega)
  refine ⟨?_, ⟨f4, hb4, ?_⟩, ?_⟩
  · simp [retry_request, retryAux, ha0, hr0, ha1, hr1, ha2, hr2, ha3, hr3, ha4]
  · simp [retry_request, retryAux, hb0, hs0, hb1, hs1, hb2, hs2, hb3, hs3, hb4, hs4]
  · simp [retry_request, retryAux, hc0, hcm]

/-- Witness for C2: concrete operations realizing the three scenarios. -/
theorem C2_witness :
    retry_request (fun i => if i < 4
        then Except.error "Please reduce your request rate"
        else Except.ok 42) 5 = (some (.ok 42), 5) ∧
    (∃ e4, (fun _ : Nat =>
        (Except.error "Please reduce your request rate" : Except String Nat)) 4 =
          .error e4 ∧
      retry_request (fun _ : Nat =>
        (Except.error "Please reduce your request rate" : Except String Nat)) 5 =
          (some (.error e4), 5)) ∧
    retry_request (fun _ : Nat => (Except.error "boom" : Except String Nat)) 5 =
      (some (.error "boom"), 1) :=
  C2_retry_request Nat
    (fun i => if i < 4 then Except.error "Please reduce your request rate"
              else Except.ok 42)
    (fun _ => Except.error "Please reduce your request rate")
    (fun _ => Except.error "boom") 42 "boom"
    (fun i hi => ⟨"Please reduce your request rate", by simp [hi], by decide⟩)
    (by norm_num)
    (fun i _ => ⟨"Please reduce your request rate", rfl, by decide⟩)
    rfl (by decide)

/-- C4 counterexample: a recursive put of a non-directory local source to
an object-storage destination (protocol `s3`) does not raise
`FlyteAssertion` and does perform a backend write, because the directory
precondition of `_put` is keyed on the protocol of the destination
filesystem, not on the source. -/
theorem C4_counterexample :
    (_put lfsNone ⟨"s3", fun _ => false, .ok none, []⟩
        "f.txt" "s3://b/x" true none).backendWrites = 1 ∧
    (_put lfsNone ⟨"s3", fun _ => false, .ok none, []⟩
        "f.txt" "s3://b/x" true none).result = .ok "s3://b/x/" := by
  constructor <;> rfl

/-- C4 (amended): when the destination resolves to the local `file`
backend, a recursive put whose source is not a directory fails with a
`FlyteAssertion` precondition error and performs no backend write; for
non-local destinations the directory check is skipped. -/
theorem C4_put_recursive_nondir (lfs : LocalFS) (env : PutEnv) (f t : String)
    (caller : Option (List (String × String)))
    (hdest : env.destProtocol = "file")
    (hdir : env.isdir (strip_file_header f) = false) :
    (_put lfs env f t true caller).result =
      .error (.flyteAssertion
        ("Source path " ++ strip_file_header f ++ " is not a directory")) ∧
    (_put lfs env f t true caller).backendWrites = 0 := by
  unfold _put
  simp [hdest, hdir]

/-- Witness for C4: a concrete non-directory source with a local
destination raises the precondition error with zero backend writes. -/
theorem C4_witness :
    (_put lfsNone ⟨"file", fun _ => false, .ok none, []⟩
        "file:///tmp/f.txt" "/out" true none).result =
      .error (.flyteAssertion
        ("Source path " ++ strip_file_header "file:///tmp/f.txt" ++
         " is not a directory")) ∧
    (_put lfsNone ⟨"file", fun _ => false, .ok none, []⟩
        "file:///tmp/f.txt" "/out" true none).backendWrites = 0 :=
  C4_put_recursive_nondir lfsNone ⟨"file", fun _ => false, .ok none, []⟩
    "file:///tmp/f.txt" "/out" none rfl rfl

/-- C5 counterexample: the backend put returns the canonicalized path
`s3://bucket/canon`, yet the public `put_data` returns the originally
requested `s3://bucket/x`, because the canonicalized result is only
propagated for `flyte://` destinations. -/
theorem C5_counterexample :
    async_put_data lfsNone ⟨"s3", fun _ => false, .ok (some "s3://bucket/canon"), []⟩
        "l.txt" "s3://bucket/x" false none = .ok "s3://bucket/x" ∧
    (_put lfsNone ⟨"s3", fun _ => false, .ok (some "s3://bucket/canon"), []⟩
        "l.txt" "s3://bucket/x" false none).result = .ok "s3://bucket/canon" ∧
    ("s3://bucket/x" : String) ≠ "s3://bucket/canon" := by
  refine ⟨rfl, rfl, by decide⟩

/-- C5 (amended): a successful public `put_data` returns the originally
requested destination path whenever it does not start with `flyte://`;
only for a `flyte://` destination is the value produced by the internal
put (the canonicalized backend path when one is returned, otherwise the
normalized destination) passed through to the caller. -/
theorem C5_put_data_return (lfs : LocalFS) (env : PutEnv)
    (l r : String) (mp : Bool) (caller : Option (List (String × String))) :
    (strStarts r "flyte://" = false →
       ∀ s, async_put_data lfs env l r mp caller = .ok s → s = r) ∧
    (strStarts r "flyte://" = true →
       ∀ s, (_put lfs env l r mp caller).result = .ok s →
         async_put_data lfs env l r mp caller = .ok s) := by
  unfold async_put_data
  cases hres : (_put lfs env l r mp caller).result with
  | ok x =>
    constructor
    · intro hfl s hs
      simp [hfl] at hs
      exact hs.symm
    · intro hfl s hs
      simp at hs
      subst hs
      simp [hfl]
  | error e =>
    constructor
    · intro _ s hs
      simp at hs
    · intro _ s hs
      simp at hs

/-- Witness for C5: the canonicalized path is returned for a `flyte://`
destination, and the original path for an `s3://` destination. -/
theorem C5_witness :
    async_put_data lfsNone ⟨"s3", fun _ => false, .ok (some "s3://bucket/canon"), []⟩
        "l.txt" "flyte://x" false none = .ok "s3://bucket/canon" ∧
    ("s3://bucket/x" : String) = "s3://bucket/x" := by
  have h := C5_put_data_return lfsNone
    ⟨"s3", fun _ => false, .ok (some "s3://bucket/canon"), []⟩
    "l.txt" "flyte://x" false none
  have h2 := C5_put_data_return lfsNone
    ⟨"s3", fun _ => false, .ok (some "s3://bucket/canon"), []⟩
    "l.txt" "s3://bucket/x" false none
  exact ⟨h.2 (by decide) "s3://bucket/canon" rfl,
         h2.1 (by decide) "s3://bucket/x" rfl⟩

/-- C6 counterexample: a `FlyteDataNotFoundException` raised inside the
public put wrapper is not propagated unchanged: `async_put_data` has no
dedicated not-found handler and wraps it into a
`FlyteUploadDataException`. -/
theorem C6_counterexample :
    async_put_data lfsNone ⟨"s3", fun _ => false, .error (.notFound "s3://b/x"), []⟩
        "l.txt" "s3://b/x" false none =
      .error (.uploadExc (.notFound "s3://b/x") "l.txt" "s3://b/x") ∧
    async_put_data lfsNone ⟨"s3", fun _ => false, .error (.notFound "s3://b/x"), []⟩
        "l.txt" "s3://b/x" false none ≠
      .error (.notFound "s3://b/x") := by
  refine ⟨rfl, by simp [async_put_data, _put]⟩

/-- C6 (amended): in the public get wrapper a not-found error is
propagated unchanged and every other failure is wrapped into a
`FlyteDownloadDataException` carrying the original cause and both paths;
in the public put wrapper every failure -- a not-found error included --
is wrapped into a `FlyteUploadDataException` carrying the original cause
and both paths. -/
theorem C6_wrapper_failures (lfs : LocalFS) (genv : GetEnv) (penv : PutEnv)
    (rp lp l r : String) (mp : Bool) (caller : Option (List (String × String))) :
    (∀ p, (get lfs genv rp lp mp).1 = .error (.notFound p) →
       async_get_data lfs genv rp lp mp = .error (.notFound p)) ∧
    (∀ e, (get lfs genv rp lp mp).1 = .error e → (∀ p, e ≠ .notFound p) →
       async_get_data lfs genv rp lp mp = .error (.downloadExc e rp lp)) ∧
    (∀ e, (_put lfs penv l r mp caller).result = .error e →
       async_put_data lfs penv l r mp caller = .error (.uploadExc e l r)) := by
  refine ⟨?_, ?_, ?_⟩
  · intro p hp
    unfold async_get_data
    rw [hp]
  · intro e he hne
    unfold async_get_data
    rw [he]
    cases e with
    | notFound p => exact absurd rfl (hne p)
    | osError msg => rfl
    | flyteAssertion msg => rfl
    | downloadExc c fp tp => rfl
    | uploadExc c fp tp => rfl
    | other msg => rfl
  · intro e he
    unfold async_put_data
    rw [he]

/-- Witness for C6: a concrete not-found download is propagated
unchanged, a concrete non-not-found download failure is wrapped with
cause and both paths, and a concrete put failure is wrapped. -/
theorem C6_witness :
    async_get_data lfsNone ⟨.error (.notFound "s3://b/k"), false, .ok none⟩
        "s3://b/k" "/t" false = .error (.notFound "s3://b/k") ∧
    async_get_data lfsNone ⟨.error (.other "boom"), false, .ok none⟩
        "s3://b/k" "/t" false =
      .error (.downloadExc (.other "boom") "s3://b/k" "/t") ∧
    async_put_data lfsNone ⟨"s3", fun _ => false, .error (.osError "io"), []⟩
        "l.txt" "s3://b/x" false none =
      .error (.uploadExc (.osError "io") "l.txt" "s3://b/x") := by
  have h1 := C6_wrapper_failures lfsNone ⟨.error (.notFound "s3://b/k"), false, .ok none⟩
    ⟨"s3", fun _ => false, .error (.osError "io"), []⟩ "s3://b/k" "/t" "l.txt" "s3://b/x"
    false none
  have h2 := C6_wrapper_failures lfsNone ⟨.error (.other "boom"), false, .ok none⟩
    ⟨"s3", fun _ => false, .error (.osError "io"), []⟩ "s3://b/k" "/t" "l.txt" "s3://b/x"
    false none
  exact ⟨h1.1 "s3://b/k" rfl,
         h2.2.1 (.other "boom") rfl (fun p => by simp),
         h1.2.2 (.osError "io") rfl⟩

/-- A lookup hitting the first list of an append. -/
theorem dlookup_append_left (u d : List (String × String)) (k v : String)
    (h : dlookup u k = some v) : dlookup (u ++ d) k = some v := by
  induction u with
  | nil => simp [dlookup] at h
  | cons x xs ih =>
    unfold dlookup at h ⊢
    cases hx : (x.1 == k) with
    | true => simpa [List.find?_cons, hx] using (by simpa [List.find?_cons, hx] using h)
    | false =>
      simp only [List.cons_append, List.find?_cons, hx] at h ⊢
      exact ih h

/-- A lookup missing the first list of an append falls through to the
second. -/
theorem dlookup_append_right (u d : List (String × String)) (k : String)
    (h : dlookup u k = none) : dlookup (u ++ d) k = dlookup d k := by
  induction u with
  | nil => simp [dlookup]
  | cons x xs ih =>
    unfold dlookup at h ⊢
    cases hx : (x.1 == k) with
    | true => simp [List.find?_cons, hx] at h
    | false =>
      simp only [List.cons_append, List.find?_cons, hx] at h ⊢
      exact ih h

/-- C10: when execution metadata is configured (truthy) and the call
reaches the backend write, `_put` hands the backend a metadata dict in
which every key of the execution metadata carries the execution-metadata
value (overwriting any caller value) and every caller key absent from the
execution metadata keeps the caller value. -/
theorem C10_put_metadata_merge (lfs : LocalFS) (env : PutEnv) (f t : String)
    (r : Bool) (caller : Option (List (String × String)))
    (hexec : env.execMeta ≠ [])
    (hpre : (r && (env.destProtocol == "file") &&
             !(env.isdir (strip_file_header f))) = false) :
    (_put lfs env f t r caller).metadataSent =
      some (dictUpdate (caller.getD []) env.execMeta) ∧
    (∀ k v, dlookup env.execMeta k = some v →
       dlookup (dictUpdate (caller.getD []) env.execMeta) k = some v) ∧
    (∀ k, dlookup env.execMeta k = none →
       dlookup (dictUpdate (caller.getD []) env.execMeta) k =
         dlookup (caller.getD []) k) := by
  have hne : env.execMeta.isEmpty = false := by
    cases hM : env.execMeta with
    | nil => exact absurd hM hexec
    | cons x xs => rfl
  refine ⟨?_, ?_, ?_⟩
  · unfold _put
    simp only [hpre, hne, Bool.false_eq_true, if_false]
    cases hres : env.putResult with
    | ok dst => rfl
    | error e => rfl
  · intro k v h
    exact dlookup_append_left _ _ _ _ h
  · intro k h
    exact dlookup_append_right _ _ _ h

/-- Witness for C10: with execution metadata `a=1, b=2` and caller
metadata `a=0, c=3`, the merged dict maps `a` to the execution value `1`
and preserves the caller-only key `c` at `3`. -/
theorem C10_witness :
    (_put lfsNone ⟨"s3", fun _ => false, .ok none, [("a", "1"), ("b", "2")]⟩
        "l.txt" "s3://b/x" false (some [("a", "0"), ("c", "3")])).metadataSent =
      some (dictUpdate [("a", "0"), ("c", "3")] [("a", "1"), ("b", "2")]) ∧
    dlookup (dictUpdate [("a", "0"), ("c", "3")] [("a", "1"), ("b", "2")]) "a" =
      some "1" ∧
    dlookup (dictUpdate [("a", "0"), ("c", "3")] [("a", "1"), ("b", "2")]) "c" =
      some "3" := by
  have h := C10_put_metadata_merge lfsNone
    ⟨"s3", fun _ => false, .ok none, [("a", "1"), ("b", "2")]⟩
    "l.txt" "s3://b/x" false (some [("a", "0"), ("c", "3")])
    (by decide) (by decide)
  exact ⟨h.1, h.2.1 "a" "1" rfl, (h.2.2 "c" rfl).trans rfl⟩

end DataPersistence
